import Mathlib

/-!
Verification of the client-side dashboard logic in `src/static/js/home.js`
(PTC-Sim). The file below is a shallow embedding of the popup-persistence
class `PersistInfobox`, the selection toggle `home_select_loco`, and the
success handler of `_get_content_async` (table refresh, shuffle diff, map
rebuild), together with proofs about them.

Modelling conventions:
- JS nullable object references become `Option` values.
- DOM / map-library side effects (hiding or showing an infobox, the text
  shuffle animation, issuing the content refresh request) are recorded in an
  explicit `Effect` list returned next to the new state.
- Numeric marker coordinates are modelled as integers; no verified property
  depends on their arithmetic.
- JS truthiness: an object reference is truthy iff it is non-null, so a
  guard `if (this.infobox)` becomes a match on the `Option`.
-/

namespace PTCSim

/-- A map surface handle (the page has a single `status_map`); its identity
is irrelevant to the verified logic. -/
abbrev GMap := Nat

/-- The single global map surface `status_map`. -/
def statusMap : GMap := (0 : Nat)

/-- A `google.maps.Marker`: position, icon and title, as constructed at
`home.js` lines 175-184. Coordinates are integers here (their values never
matter to the verified logic). -/
structure Marker where
  lat : Int
  lng : Int
  icon : String
  title : String
  deriving Repr, DecidableEq

/-- A `google.maps.InfoWindow` with its HTML content (`home.js` 187-189). -/
structure Infobox where
  content : String
  deriving Repr, DecidableEq

/-- Observable side effects of the embedded operations. -/
inductive Effect where
  /-- Embeds `infobox.close()` : hide the given infobox. -/
  | hideBox (i : Infobox)
  /-- Embeds `infobox.open(map, marker)` : show the infobox on the map, anchored to
  the (possibly null) marker. -/
  | showBox (map : GMap) (i : Infobox) (m : Option Marker)
  /-- Embeds `_get_content_async()` : issue the content refresh request. -/
  | refresh
  /-- Embeds the `shuffleLetters` call : run the text shuffle animation on the
  element with this id. -/
  | shuffle (id : String)
  /-- Embeds the className assignment to "clicked" : mark the selected
  table row. -/
  | setClicked (id : String)
  deriving Repr, DecidableEq

/-- Does the character list `needle` occur as a contiguous run inside `hay`?
(Embeds the JS `String.prototype.includes` used at `home.js` line 70.) -/
def hasSub : List Char → List Char → Bool
  | [], needle => needle.isEmpty
  | hay@(_ :: t), needle => needle.isPrefixOf hay || hasSub t needle

/-- JS `hay.includes(needle)` for strings. -/
def strIncludes (hay needle : String) : Bool :=
  hasSub hay.data needle.data

/-- State of the `PersistInfobox` class (`home.js` lines 32-72): the
persisted infobox and its anchoring marker, each a nullable reference. -/
structure PersistInfobox where
  infobox : Option Infobox
  marker : Option Marker
  deriving Repr, DecidableEq

namespace PersistInfobox

/-- JS `constructor(infobox=null, marker=null)` with its default arguments, as
invoked at `home.js` line 73 (`new PersistInfobox()`). -/
def init : PersistInfobox := ⟨none, none⟩

/-- JS `set(infobox, marker, map)` (`home.js` 38-41): overwrite both references.
The declared `map` parameter is unused in the source and the call site
(line 200) passes only two arguments, so it is omitted here. -/
def set (_s : PersistInfobox) (infobox : Option Infobox) (marker : Option Marker) :
    PersistInfobox :=
  ⟨infobox, marker⟩

/-- JS `clear()` (`home.js` 43-46): null both references, no UI action. -/
def clear (_s : PersistInfobox) : PersistInfobox := ⟨none, none⟩

/-- JS `is_set()` (`home.js` 48-50): returns `!this.infobox`, i.e. true exactly
when NO infobox is referenced. -/
def is_set (s : PersistInfobox) : Bool := s.infobox.isNone

/-- JS `open(map)` (`home.js` 52-56): if an infobox is referenced, show it on
the map anchored to `this.marker`; otherwise do nothing. The state is never
changed. (`open` is a Lean keyword, hence the name `openBox`.) -/
def openBox (s : PersistInfobox) (map : GMap) : PersistInfobox × List Effect :=
  match s.infobox with
  | some i => (s, [Effect.showBox map i s.marker])
  | none => (s, [])

/-- JS `close()` (`home.js` 58-63): if an infobox is referenced, hide it
(`this.infobox.close()`) and then `this.clear()`; otherwise do nothing. -/
def close (s : PersistInfobox) : PersistInfobox × List Effect :=
  match s.infobox with
  | some i => (clear s, [Effect.hideBox i])
  | none => (s, [])

/-- JS `is_for_device(device_name)` (`home.js` 65-67):
`this.marker && this.marker.title == device_name`. A null marker makes the
JS expression return `null`, which is falsy; the embedding returns `false`
there, since the value is only ever used as a condition. -/
def is_for_device (s : PersistInfobox) (device_name : String) : Bool :=
  match s.marker with
  | some m => m.title == device_name
  | none => false

/-- JS `is_loco()` (`home.js` 69-71):
the marker is non-null and its title contains the substring "Loco"
(via JS String includes); again a null marker
yields a falsy value, embedded as `false`. -/
def is_loco (s : PersistInfobox) : Bool :=
  match s.marker with
  | some m => strIncludes m.title "Loco"
  | none => false

end PersistInfobox

/-- The states of `persist_infobox` reachable in the program: it starts as
`new PersistInfobox()` (line 73) and is only ever changed through the class
operations. `set` is invoked (line 200) with a freshly constructed
`InfoWindow` and `Marker`, which in JS are never null, so the `set` step
carries object values. -/
inductive Reached : PersistInfobox → Prop where
  | init : Reached PersistInfobox.init
  | setStep (s : PersistInfobox) (i : Infobox) (m : Marker) :
      Reached s → Reached (s.set (some i) (some m))
  | clearStep (s : PersistInfobox) : Reached s → Reached s.clear
  | closeStep (s : PersistInfobox) : Reached s → Reached s.close.1
  | openStep (s : PersistInfobox) (map : GMap) : Reached s → Reached (s.openBox map).1

/-- A `google.maps.Polyline` built from a connection-line descriptor
(`home.js` 155-167); only its path survives into the state. -/
structure Polyline where
  path : List (Int × Int)
  deriving Repr, DecidableEq

/-- The mutable page state touched by the handlers: the selected loco
(`curr_loco`), the locos table HTML, the rendered marker and polyline lists,
and the persisted popup. -/
structure UIState where
  curr_loco : Option String
  locos_table : String
  status_map_markers : List Marker
  curr_polylines : List Polyline
  persist_infobox : PersistInfobox
  deriving Repr, DecidableEq

/-- JS `home_select_loco(loco_name)` (`home.js` 77-90). `loco_name` comes from a
table row and is a (non-null) string, so the JS comparison
`curr_loco == loco_name` is `curr_loco == some loco_name` here. If the name
is already selected, clear the selection; otherwise select it and, when
another loco popup is persisted (`is_loco() && !is_for_device(loco_name)`),
close that popup. Always ends by issuing the content refresh. -/
def home_select_loco (st : UIState) (loco_name : String) : UIState × List Effect :=
  if st.curr_loco == some loco_name then
    ({ st with curr_loco := none }, [Effect.refresh])
  else
    let st1 := { st with curr_loco := some loco_name }
    if st1.persist_infobox.is_loco && !(st1.persist_infobox.is_for_device loco_name) then
      let pc := st1.persist_infobox.close
      ({ st1 with persist_infobox := pc.1 }, pc.2 ++ [Effect.refresh])
    else
      (st1, [Effect.refresh])

/-- One element carrying the `shuffleable` class, as seen in the DOM when
the success handler runs: its id attribute and its displayed text. -/
structure SElem where
  id : String
  text : String
  deriving Repr, DecidableEq

/-- Property access `data.shuffle_data[id]` on the JSON payload object:
first value bound to the key, or `none` when the key is absent (JS:
`undefined`). -/
def lookupTxt : List (String × String) → String → Option String
  | [], _ => none
  | (k, v) :: rest, id => if k == id then some v else lookupTxt rest id

/-- The refresh diff (`home.js` 117-123): walk the `.shuffleable` elements in
document order and collect the id of each whose displayed text differs from
`data.shuffle_data[id]` (a missing key, JS `undefined`, also counts as
different, since `text != undefined` is true for a string). -/
def needs_txtshuffle : List SElem → List (String × String) → List String
  | [], _ => []
  | e :: rest, sd =>
      if some e.text == lookupTxt sd e.id then
        needs_txtshuffle rest sd
      else
        e.id :: needs_txtshuffle rest sd

/-- A marker descriptor from `data.status_map.markers` (`home.js` 170-189):
coordinates, icon, title and the infobox HTML content. -/
structure MarkerDesc where
  lat : Int
  lng : Int
  icon : String
  title : String
  infobox : String
  deriving Repr, DecidableEq

/-- The successful JSON payload of `/_home_get_async_content`
(spec section 6): shuffle data, table HTML, connection-line paths and marker
descriptors. -/
structure Payload where
  shuffle_data : List (String × String)
  locos_table : String
  loco_connlines : List (List (Int × Int))
  status_map_markers : List MarkerDesc
  deriving Repr, DecidableEq

/-- The body handed to the ajax success callback: either the literal string
`"error"` (the application-level error sentinel, the only non-object body
the server sends) or the JSON payload object. The JS equality test of the
body against the string "error" is true exactly on the sentinel. -/
inductive RespBody where
  | errorLit
  | payload (p : Payload)
  deriving Repr, DecidableEq

/-- The render pass of the success handler (`home.js` 114-214), taken after
the error-sentinel check: compute the shuffle diff from the current DOM, swap
the table HTML (re-marking the selected row), run the shuffle animations,
tear down and rebuild markers and polylines from the payload, and reopen the
persisted infobox on `status_map`. `dom` is the `.shuffleable` element list
the jQuery selector sees, in document order. -/
def render (p : Payload) (dom : List SElem) (st : UIState) : UIState × List Effect :=
  let ids := needs_txtshuffle dom p.shuffle_data
  let clickEffs : List Effect :=
    match st.curr_loco with
    | some name => [Effect.setClicked name]
    | none => []
  let newLines : List Polyline := p.loco_connlines.map Polyline.mk
  let newMarkers : List Marker :=
    p.status_map_markers.map (fun d => ⟨d.lat, d.lng, d.icon, d.title⟩)
  let st1 := { st with
    locos_table := p.locos_table,
    status_map_markers := newMarkers,
    curr_polylines := newLines }
  let po := st1.persist_infobox.openBox statusMap
  ({ st1 with persist_infobox := po.1 },
    clickEffs ++ ids.map Effect.shuffle ++ po.2)

/-- The ajax success callback (`home.js` 109-215): on the error sentinel it
logs and returns before touching any state; otherwise it runs the render
pass. -/
def success_handler (data : RespBody) (dom : List SElem) (st : UIState) :
    UIState × List Effect :=
  match data with
  | RespBody.errorLit => (st, [])
  | RespBody.payload p => render p dom st

/-- C2: every operation of `PersistInfobox` preserves the invariant that the
infobox reference and the marker reference are set or null together, so in
every state reachable from `new PersistInfobox()` through the class
operations (with `set` receiving the constructed, non-null objects its call
site passes) the two fields are set or cleared together. -/
theorem reached_both_or_neither (s : PersistInfobox) (h : Reached s) :
    s.infobox = none ↔ s.marker = none := by
  induction h with
  | init => simp [PersistInfobox.init]
  | setStep s i m _ _ => simp [PersistInfobox.set]
  | clearStep s _ _ => simp [PersistInfobox.clear]
  | closeStep s _ ih =>
      cases hi : s.infobox with
      | none => simpa [PersistInfobox.close, hi] using ih
      | some i => simp [PersistInfobox.close, hi, PersistInfobox.clear]
  | openStep s map _ ih =>
      cases hi : s.infobox with
      | none => simpa [PersistInfobox.openBox, hi] using ih
      | some i => simpa [PersistInfobox.openBox, hi] using ih

/-- Witness for C2: the invariant holds at a concrete reachable state, the
one obtained by set-then-close from the initial state. -/
theorem reached_both_or_neither_witness :
    ((PersistInfobox.init.set (some ⟨"c"⟩) (some ⟨0, 0, "ic", "Loco 1001"⟩)).close.1.infobox
        = none
      ↔ (PersistInfobox.init.set (some ⟨"c"⟩) (some ⟨0, 0, "ic", "Loco 1001"⟩)).close.1.marker
        = none) :=
  reached_both_or_neither _
    (Reached.closeStep _ (Reached.setStep _ _ _ Reached.init))

/-- C3: `close` is idempotent. Applying `close` twice yields the same state
as once, and the second application performs no UI action; from any state
satisfying the both-or-neither invariant a single `close` already yields the
empty state; and `close` on a state with no referenced popup is a complete
no-op (state unchanged, no effects). -/
theorem close_idem (s : PersistInfobox) :
    s.close.1.close.1 = s.close.1
    ∧ s.close.1.close.2 = []
    ∧ ((s.infobox = none ↔ s.marker = none) → s.close.1 = PersistInfobox.init)
    ∧ (s.infobox = none → s.close.1 = s ∧ s.close.2 = []) := by
  cases hi : s.infobox with
  | none =>
      refine ⟨?_, ?_, ?_, ?_⟩
      · simp [PersistInfobox.close, hi]
      · simp [PersistInfobox.close, hi]
      · intro hinv
        have hm : s.marker = none := hinv.mp rfl
        simp [PersistInfobox.close, hi, PersistInfobox.init]
        cases s
        simp_all
      · intro _
        simp [PersistInfobox.close, hi]
  | some i =>
      refine ⟨?_, ?_, ?_, ?_⟩
      · simp [PersistInfobox.close, PersistInfobox.clear, hi]
      · simp [PersistInfobox.close, PersistInfobox.clear, hi]
      · intro _
        simp [PersistInfobox.close, PersistInfobox.clear, hi, PersistInfobox.init]
      · intro hnone
        exact absurd hnone (by simp)

/-- Witness for C3: at a concrete full state, one `close` yields the empty
state; at the empty state, `close` is a no-op. -/
theorem close_idem_witness :
    ((⟨some ⟨"c"⟩, some ⟨0, 0, "ic", "Loco 1001"⟩⟩ : PersistInfobox).close.1
        = PersistInfobox.init)
    ∧ (PersistInfobox.init.close.1 = PersistInfobox.init
        ∧ PersistInfobox.init.close.2 = []) :=
  ⟨(close_idem _).2.2.1 (by decide), (close_idem _).2.2.2 rfl⟩

/-- C7: after `set(i, m)` followed by `clear()`, `is_for_device` returns
false on every name, including the title of `m`. -/
theorem is_for_device_after_set_clear (s : PersistInfobox) (i : Infobox)
    (m : Marker) (n : String) :
    ((s.set (some i) (some m)).clear).is_for_device n = false := rfl

/-- C8: `close` and `open` on a state with no referenced popup are safe
no-ops: the state is unchanged and no display or hide action is performed,
on any map surface. -/
theorem close_open_noop (s : PersistInfobox) (map : GMap)
    (h : s.infobox = none) :
    s.close = (s, []) ∧ s.openBox map = (s, []) := by
  constructor
  · simp [PersistInfobox.close, h]
  · simp [PersistInfobox.openBox, h]

/-- Witness for C8: the no-op behavior at the initial state on the global
map surface. -/
theorem close_open_noop_witness :
    PersistInfobox.init.close = (PersistInfobox.init, [])
    ∧ PersistInfobox.init.openBox statusMap = (PersistInfobox.init, []) :=
  close_open_noop PersistInfobox.init statusMap rfl

/-- C9 counterexample: the claim quantifies over every substring label, but
`is_loco` takes no label argument and tests only the fixed substring
`"Loco"`. At the label `"Base"` and a state holding a popup anchored to the
marker titled `"Loco 1001"`, `is_loco` returns true although the anchor
title does not contain `"Base"`, so the claimed biconditional fails there. -/
theorem is_loco_label_cex :
    PersistInfobox.is_loco ⟨some ⟨"c"⟩, some ⟨0, 0, "ic", "Loco 1001"⟩⟩ = true
    ∧ strIncludes "Loco 1001" "Base" = false := by decide

/-- C9 amended: `is_loco` is hard-coded to the label `"Loco"`: it returns
true iff an anchor marker is referenced and the title of that marker contains the
substring `"Loco"` (the infobox field itself is not consulted). -/
theorem is_loco_iff_title_has_loco (s : PersistInfobox) :
    s.is_loco = true ↔ ∃ m, s.marker = some m ∧ strIncludes m.title "Loco" = true := by
  cases hm : s.marker with
  | none => simp [PersistInfobox.is_loco, hm]
  | some m => simp [PersistInfobox.is_loco, hm]

/-- C10: `is_set` returns `!this.infobox`: true exactly when no infobox is
referenced — the negation of what its name suggests. In particular it is
true on the empty initial state and false after a `set` with a non-null
infobox. -/
theorem is_set_iff_no_infobox (s : PersistInfobox) :
    (s.is_set = true ↔ s.infobox = none)
    ∧ PersistInfobox.init.is_set = true
    ∧ (∀ i m, (s.set (some i) m).is_set = false) := by
  refine ⟨?_, rfl, fun i m => rfl⟩
  cases hi : s.infobox <;> simp [PersistInfobox.is_set, hi]

/-- C1 counterexample: with no loco selected and the persisted popup anchored
to the marker titled `"Base 3"`, `home_select_loco("Loco 1001")` does NOT
close that popup: the infobox reference survives the call, nothing is hidden
and only the refresh is issued. The guard at `home.js` line 84 requires
`is_loco()`, and `"Base 3"` does not contain `"Loco"`, so the close branch is
never taken for a base-station popup. -/
theorem select_base3_not_closed_cex :
    (home_select_loco
        ⟨none, "tbl", [], [], ⟨some ⟨"c"⟩, some ⟨0, 0, "ic", "Base 3"⟩⟩⟩
        "Loco 1001").1.persist_infobox.infobox = some ⟨"c"⟩
    ∧ (home_select_loco
        ⟨none, "tbl", [], [], ⟨some ⟨"c"⟩, some ⟨0, 0, "ic", "Base 3"⟩⟩⟩
        "Loco 1001").2 = [Effect.refresh] := by decide

/-- C1 amended: in every state in which the persisted popup is anchored to
the marker titled `"Base 3"` (a non-loco marker), `home_select_loco` with the
name `"Loco 1001"` leaves the popup untouched — both references unchanged, no
hide action — and issues only the content refresh. Only a popup whose anchor
title contains `"Loco"` (and is for a different device) is closed before the
refresh. -/
theorem select_base3_popup_untouched (st : UIState) (m : Marker)
    (hm : st.persist_infobox.marker = some m) (ht : m.title = "Base 3") :
    (home_select_loco st "Loco 1001").1.persist_infobox = st.persist_infobox
    ∧ (home_select_loco st "Loco 1001").2 = [Effect.refresh] := by
  have hloco : st.persist_infobox.is_loco = false := by
    simp [PersistInfobox.is_loco, hm, ht]
    decide
  cases hsel : st.curr_loco == some "Loco 1001" with
  | true => simp [home_select_loco, hsel]
  | false => simp [home_select_loco, hsel, hloco]

/-- Witness for C1 amended: at the concrete counterexample state. -/
theorem select_base3_popup_untouched_witness :
    ((home_select_loco
        ⟨none, "tbl", [], [], ⟨some ⟨"c"⟩, some ⟨0, 0, "ic", "Base 3"⟩⟩⟩
        "Loco 1001").1.persist_infobox
      = (⟨some ⟨"c"⟩, some ⟨0, 0, "ic", "Base 3"⟩⟩ : PersistInfobox))
    ∧ (home_select_loco
        ⟨none, "tbl", [], [], ⟨some ⟨"c"⟩, some ⟨0, 0, "ic", "Base 3"⟩⟩⟩
        "Loco 1001").2 = [Effect.refresh] :=
  select_base3_popup_untouched _ _ rfl rfl

/-- C4: when the response body is the error sentinel `"error"`, the success
handler returns before touching any state: the locos-table HTML, the marker
set, the polyline set, the selection and the persisted popup are all exactly
as before the call, and no UI effect is performed. -/
theorem error_sentinel_no_mutation (dom : List SElem) (st : UIState) :
    success_handler RespBody.errorLit dom st = (st, []) := rfl

/-- C5: the refresh diff computes exactly the ids of the shuffleable elements
whose payload value differs from the displayed text, in document order (a
filter of the element list); and when payload and display agree on every
shuffleable element the diff is empty. -/
theorem shuffle_diff_exact (elems : List SElem) (sd : List (String × String)) :
    needs_txtshuffle elems sd
      = (elems.filter (fun e => !(some e.text == lookupTxt sd e.id))).map SElem.id
    ∧ ((∀ e ∈ elems, lookupTxt sd e.id = some e.text) →
        needs_txtshuffle elems sd = []) := by
  induction elems with
  | nil => exact ⟨rfl, fun _ => rfl⟩
  | cons e rest ih =>
      constructor
      · cases hEq : some e.text == lookupTxt sd e.id with
        | true =>
            have : (!(some e.text == lookupTxt sd e.id)) = false := by simp [hEq]
            simp [needs_txtshuffle, hEq, List.filter, this, ih.1]
        | false =>
            have : (!(some e.text == lookupTxt sd e.id)) = true := by simp [hEq]
            simp [needs_txtshuffle, hEq, List.filter, this, ih.1]
      · intro hall
        have he : lookupTxt sd e.id = some e.text := hall e (by simp)
        have hrest : ∀ x ∈ rest, lookupTxt sd x.id = some x.text := by
          intro x hx
          exact hall x (by simp [hx])
        simp [needs_txtshuffle, he, ih.2 hrest]

/-- Witness for C5: on a concrete element list agreeing with the payload the
diff is empty. -/
theorem shuffle_diff_exact_witness :
    needs_txtshuffle [⟨"loco-1001-speed", "42"⟩] [("loco-1001-speed", "42")] = [] :=
  (shuffle_diff_exact _ _).2 (by decide)

/-- C6: toggling the same name twice returns the selection to none: from any
state whose selection is not `n`, the first `home_select_loco n` sets the
selection to `n` and the second clears it. -/
theorem select_toggle_twice (st : UIState) (n : String)
    (h : st.curr_loco ≠ some n) :
    (home_select_loco st n).1.curr_loco = some n
    ∧ (home_select_loco (home_select_loco st n).1 n).1.curr_loco = none := by
  have hb : (st.curr_loco == some n) = false := by
    simp [h]
  have h1 : (home_select_loco st n).1.curr_loco = some n := by
    simp only [home_select_loco, hb, Bool.false_eq_true, if_false]
    split <;> rfl
  refine ⟨h1, ?_⟩
  generalize hst : (home_select_loco st n).1 = st2 at h1
  simp [home_select_loco, h1]

/-- Witness for C6: toggling `"Loco 1001"` twice from the initial page state
(no selection) ends with no selection. -/
theorem select_toggle_twice_witness :
    (home_select_loco
        (home_select_loco ⟨none, "tbl", [], [], PersistInfobox.init⟩ "Loco 1001").1
        "Loco 1001").1.curr_loco = none :=
  (select_toggle_twice ⟨none, "tbl", [], [], PersistInfobox.init⟩ "Loco 1001"
    (by decide)).2

end PTCSim
